import Mathlib

/-!
Verification of the FaceNet model download script (download_facenet.py).

The script is embedded shallowly: the fixed string constants are Lean
string definitions, the progress callback is a pure function on integer
arguments returning exact rational values, and the sequential script body
is a function from an environment of effect outcomes (whether makedirs
raises, whether urlretrieve raises, what content the remote serves) and an
initial filesystem state to a run result recording the event trace, the
final filesystem state, the printed lines and the termination outcome.
-/

/-- The constant `models_dir = "assets/models"` of the script. -/
def models_dir : String := "assets/models"

/-- The constant `model_url` of the script. -/
def model_url : String :=
  "https://github.com/kby-ai/FaceRecognition-Flutter/raw/main/assets/facenet.tflite"

/-- `os.path.join(models_dir, "facenet.tflite")` with the POSIX separator. -/
def model_path : String := models_dir ++ "/" ++ "facenet.tflite"

/-- The manual fallback URL printed in the except branch. -/
def fallback_url : String :=
  "https://github.com/kby-ai/FaceRecognition-Flutter/tree/main/assets"

/-- `"=" * 50`. -/
def sep50 : String := String.join (List.replicate 50 "=")

/-! ### The progress callback

`download_progress(block_num, block_size, total_size)` computes
`downloaded = block_num * block_size`,
`percent = (downloaded / total_size) * 100 if total_size > 0 else 0`,
`mb_downloaded = downloaded / (1024 * 1024)` and
`mb_total = total_size / (1024 * 1024)`.
Python integers are embedded as `ℤ` and true division as division in `ℚ`.
-/

/-- `downloaded = block_num * block_size` (line 21). -/
def downloaded (block_num block_size : ℤ) : ℤ := block_num * block_size

/-- `percent = (downloaded / total_size) * 100 if total_size > 0 else 0` (line 22). -/
def percent (block_num block_size total_size : ℤ) : ℚ :=
  if 0 < total_size then
    ((downloaded block_num block_size : ℤ) : ℚ) / (total_size : ℚ) * 100
  else 0

/-- `mb_downloaded = downloaded / (1024 * 1024)` (line 23). -/
def mb_downloaded (block_num block_size : ℤ) : ℚ :=
  ((downloaded block_num block_size : ℤ) : ℚ) / (1024 * 1024)

/-- `mb_total = total_size / (1024 * 1024)` (line 24). -/
def mb_total (total_size : ℤ) : ℚ :=
  (total_size : ℚ) / (1024 * 1024)

/-- The values computed by one invocation of the callback `download_progress`
(lines 20-25): the percentage and the two megabyte counts that line 25 prints. -/
def download_progress (block_num block_size total_size : ℤ) : ℚ × ℚ × ℚ :=
  (percent block_num block_size total_size,
   mb_downloaded block_num block_size,
   mb_total total_size)

/-- Division that records a division by zero as `none` instead of Lean's
total convention, used to state that the script's guard keeps the division
by `total_size` away from zero. -/
def divChecked (a b : ℚ) : Option ℚ :=
  if b = 0 then none else some (a / b)

/-- The percentage computation of line 22 with the division by `total_size`
performed by `divChecked`: the same guard `total_size > 0` of the code,
returning `none` exactly when a division by zero would have occurred. -/
def percentChecked (block_num block_size total_size : ℤ) : Option ℚ :=
  if 0 < total_size then
    Option.map (fun q => q * 100)
      (divChecked ((downloaded block_num block_size : ℤ) : ℚ) (total_size : ℚ))
  else some 0

/-! ### The script body -/

/-- Outcomes of the external effects of one invocation: whether
`os.makedirs` raises (and with what message), whether
`urllib.request.urlretrieve` raises (and with what message), and the
content the remote serves on success. -/
structure Env where
  mkdirError : Option String
  downloadError : Option String
  remoteContent : String

/-- The filesystem as the script sees it: whether `assets/models` exists
and the content of the file at `model_path`, if any. -/
structure FS where
  dirExists : Bool
  fileContent : Option String
deriving DecidableEq

/-- The observable steps of an invocation, in execution order. -/
inductive Event
  | mkdir
  | fetch
  | report
deriving DecidableEq

/-- How the process terminates: `normal` is reaching the end of the module
(Python exit status 0); `uncaught e` is an exception `e` propagating out of
the script. -/
inductive Outcome
  | normal
  | uncaught (e : String)
deriving DecidableEq

/-- The process exit status determined by the outcome: 0 on normal
termination, 1 when an uncaught exception terminates the interpreter. -/
def exitCode : Outcome → Nat
  | Outcome.normal => 0
  | Outcome.uncaught _ => 1

/-- Everything one invocation produces: the trace of steps performed, the
final filesystem state, the printed lines (progress-line reprints and the
numeric file-size figure are not made into strings; the size is carried in
`reportedSizeBytes`), and the termination outcome. -/
structure RunResult where
  trace : List Event
  fs : FS
  output : List String
  reportedSizeBytes : Option Nat
  outcome : Outcome

/-- `os.makedirs(path, exist_ok=existOk)` on the single directory the
script uses: if the directory exists it is an error exactly when
`existOk` is false (`FileExistsError`); if it does not exist, `envFail`
decides whether the creation attempt raises (permission denied, read-only
filesystem, ...) or creates the directory. -/
def makedirs (existOk : Bool) (envFail : Option String) (fs : FS) : Except String FS :=
  if fs.dirExists then
    if existOk then Except.ok fs else Except.error "FileExistsError"
  else
    match envFail with
    | some e => Except.error e
    | none => Except.ok { fs with dirExists := true }

/-- `urllib.request.urlretrieve(model_url, model_path, download_progress)`:
either raises with the environment's error, or stores the remote content at
`model_path`, replacing whatever was there. -/
def urlretrieve (env : Env) (fs : FS) : Except String FS :=
  match env.downloadError with
  | some e => Except.error e
  | none => Except.ok { fs with fileContent := some env.remoteContent }

/-- The five header lines printed on lines 12-16 of the script. -/
def headerOutput : List String :=
  [sep50,
   "FaceNet Model Download Script",
   sep50,
   "\nDownloading from: " ++ model_url,
   "Destination: " ++ model_path ++ "\n"]

/-- The lines printed by the `except` branch (lines 42-45). -/
def errorOutput (e : String) : List String :=
  ["\n✗ Error: " ++ e,
   "\nAlternative: Download manually from:",
   fallback_url,
   "Save as: " ++ model_path ++ "\n"]

/-- The lines printed on success (lines 30-39); the file-size figure of
line 31 is carried separately in `RunResult.reportedSizeBytes`. -/
def successOutput : List String :=
  ["\n\n✓ Model downloaded successfully!",
   "  File size:",
   "\n" ++ sep50,
   "Next Steps:",
   sep50,
   "1. Run: flutter pub get",
   "2. Delete all employees from the app",
   "3. Re-register employees with new model",
   "4. Test face recognition accuracy\n"]

/-- One invocation of the script module. Line 6 (`os.makedirs`) runs first
and outside the `try` block: if it raises, nothing has been printed yet and
the exception propagates. Otherwise the header is printed, then inside
`try` the single `urlretrieve` call runs; on success `os.path.getsize` is
read back and the success lines are printed, on any exception the `except`
branch prints the error and the fallback instructions. Either way the
module ends normally. -/
def runScript (env : Env) (fs0 : FS) : RunResult :=
  match makedirs true env.mkdirError fs0 with
  | Except.error e =>
      { trace := [Event.mkdir]
        fs := fs0
        output := []
        reportedSizeBytes := none
        outcome := Outcome.uncaught e }
  | Except.ok fs1 =>
      match urlretrieve env fs1 with
      | Except.error e =>
          { trace := [Event.mkdir, Event.fetch, Event.report]
            fs := fs1
            output := headerOutput ++ errorOutput e
            reportedSizeBytes := none
            outcome := Outcome.normal }
      | Except.ok fs2 =>
          { trace := [Event.mkdir, Event.fetch, Event.report]
            fs := fs2
            output := headerOutput ++ successOutput
            reportedSizeBytes := some env.remoteContent.length
            outcome := Outcome.normal }

/-! ### Claims about the progress callback -/

/-- Claim C3: for every callback invocation `(block_num, block_size, total_size)`,
if `total_size > 0` the reported percentage equals
`(block_num * block_size / total_size) * 100`, if `total_size` is not positive
the reported percentage equals 0, and the megabyte counts equal the downloaded
byte count and `total_size` each divided by 1048576. -/
theorem download_progress_formula (block_num block_size total_size : ℤ) :
    (0 < total_size →
      (download_progress block_num block_size total_size).1 =
        ((block_num : ℚ) * (block_size : ℚ) / (total_size : ℚ)) * 100) ∧
    (total_size ≤ 0 → (download_progress block_num block_size total_size).1 = 0) ∧
    (download_progress block_num block_size total_size).2.1 =
      ((block_num : ℚ) * (block_size : ℚ)) / 1048576 ∧
    (download_progress block_num block_size total_size).2.2 =
      (total_size : ℚ) / 1048576 := by
  refine ⟨fun h => ?_, fun h => ?_, ?_, ?_⟩
  · simp [download_progress, percent, downloaded, if_pos h]
  · rw [download_progress]
    simp only [percent]
    rw [if_neg (by omega)]
  · simp [download_progress, mb_downloaded, downloaded]
    norm_num
  · simp [download_progress, mb_total]
    norm_num

/-- Witness for C3 at `(block_num, block_size, total_size) = (3, 512, 1000)`. -/
theorem download_progress_formula_witness :
    (download_progress 3 512 1000).1 = ((3 : ℚ) * 512 / 1000) * 100 ∧
    (download_progress 3 512 0).1 = 0 :=
  ⟨(download_progress_formula 3 512 1000).1 (by norm_num),
   (download_progress_formula 3 512 0).2.1 le_rfl⟩

/-- Claim C4: for every `total_size > 0`, when the bytes downloaded so far
(`block_num * block_size`) equal `total_size`, the percentage computed by
the progress callback equals exactly 100. -/
theorem percent_complete_eq_100 (block_num block_size total_size : ℤ)
    (hpos : 0 < total_size)
    (heq : downloaded block_num block_size = total_size) :
    percent block_num block_size total_size = 100 := by
  have hne : (total_size : ℚ) ≠ 0 := by
    exact_mod_cast hpos.ne'
  rw [percent, if_pos hpos, heq, div_self hne, one_mul]

/-- Witness for C4 at `(block_num, block_size, total_size) = (2, 500, 1000)`. -/
theorem percent_complete_eq_100_witness :
    percent 2 500 1000 = 100 :=
  percent_complete_eq_100 2 500 1000 (by norm_num) (by rfl)

/-- Claim C8: there are callback inputs with `total_size > 0` and
`block_num * block_size > total_size` for which the percentage strictly
exceeds 100: the callback does not clamp the percentage to 100. -/
theorem percent_exceeds_100_unclamped :
    ∃ block_num block_size total_size : ℤ,
      0 < total_size ∧
      total_size < downloaded block_num block_size ∧
      100 < percent block_num block_size total_size := by
  refine ⟨3, 512, 1000, by norm_num, by norm_num [downloaded], ?_⟩
  rw [percent, if_pos (by norm_num)]
  norm_num [downloaded]

/-- Claim C9: for every fixed `block_size ≥ 0` and fixed `total_size`, the
percentage computed by the progress callback is monotonically nondecreasing
in `block_num`. -/
theorem percent_monotone (block_size total_size bn1 bn2 : ℤ)
    (hbs : 0 ≤ block_size) (hle : bn1 ≤ bn2) :
    percent bn1 block_size total_size ≤ percent bn2 block_size total_size := by
  rw [percent, percent]
  by_cases hts : 0 < total_size
  · rw [if_pos hts, if_pos hts]
    have hnum : ((downloaded bn1 block_size : ℤ) : ℚ) ≤
        ((downloaded bn2 block_size : ℤ) : ℚ) := by
      exact_mod_cast mul_le_mul_of_nonneg_right hle hbs
    have hden : (0 : ℚ) < (total_size : ℚ) := by exact_mod_cast hts
    have := div_le_div_of_nonneg_right hnum hden.le
    nlinarith
  · rw [if_neg hts, if_neg hts]

/-- Witness for C9 at `block_size = 512`, `total_size = 1000`,
`bn1 = 1`, `bn2 = 3`. -/
theorem percent_monotone_witness :
    percent 1 512 1000 ≤ percent 3 512 1000 :=
  percent_monotone 512 1000 1 3 (by norm_num) (by norm_num)

/-- Claim C10: the progress computation is total over all integer inputs:
with the division by `total_size` tracked by `divChecked` (which returns
`none` on a zero divisor), the guard `total_size > 0` of line 22 ensures the
checked computation always returns a value, and that value agrees with
`percent`, for every `(block_num, block_size, total_size)` including
`total_size` zero or negative. -/
theorem percent_division_safe (block_num block_size total_size : ℤ) :
    (percentChecked block_num block_size total_size).isSome = true ∧
    percentChecked block_num block_size total_size =
      some (percent block_num block_size total_size) := by
  rw [percentChecked, percent]
  by_cases hts : 0 < total_size
  · have hne : (total_size : ℚ) ≠ 0 := by exact_mod_cast hts.ne'
    rw [if_pos hts, if_pos hts, divChecked, if_neg hne]
    exact ⟨rfl, rfl⟩
  · rw [if_neg hts, if_neg hts]
    exact ⟨rfl, rfl⟩

/-! ### Claims about the script body -/

/-- Counterexample to claim C1 as stated: when `os.makedirs` (line 6, outside
the `try` block) raises, the exception propagates out of the script, and no
error message or fallback instruction is printed. -/
theorem mkdir_failure_uncaught :
    (runScript (Env.mk (some "PermissionError") none "") (FS.mk false none)).outcome =
      Outcome.uncaught "PermissionError" ∧
    (runScript (Env.mk (some "PermissionError") none "") (FS.mk false none)).output = [] := by
  exact ⟨rfl, rfl⟩

/-- Claim C1 as amended: every exception raised during the download/transfer
step (inside the `try` block) is caught, the script prints a message carrying
the error text, the manual fallback URL and the destination path, and
terminates normally; but an exception raised by the directory-creation step
propagates out of the script uncaught, with nothing printed. -/
theorem transfer_errors_caught_mkdir_errors_propagate :
    (∀ (env : Env) (fs : FS) (e : String),
      env.mkdirError = none → env.downloadError = some e →
        (runScript env fs).outcome = Outcome.normal ∧
        ("\n✗ Error: " ++ e) ∈ (runScript env fs).output ∧
        fallback_url ∈ (runScript env fs).output ∧
        ("Save as: " ++ model_path ++ "\n") ∈ (runScript env fs).output) ∧
    (∀ (env : Env) (fs : FS) (e : String),
      fs.dirExists = false → env.mkdirError = some e →
        (runScript env fs).outcome = Outcome.uncaught e ∧
        (runScript env fs).output = []) := by
  constructor
  · intro env fs e hmk hdl
    cases hd : fs.dirExists <;>
      simp [runScript, makedirs, urlretrieve, hmk, hdl, hd, headerOutput, errorOutput]
  · intro env fs e hd hmk
    simp [runScript, makedirs, hd, hmk]

/-- Witness for the amended C1: a transfer failure is caught and reported,
a directory-creation failure propagates. -/
theorem transfer_errors_caught_witness :
    ((runScript (Env.mk none (some "HTTPError") "") (FS.mk false none)).outcome =
        Outcome.normal ∧
      ("\n✗ Error: " ++ "HTTPError") ∈
        (runScript (Env.mk none (some "HTTPError") "") (FS.mk false none)).output) ∧
    (runScript (Env.mk (some "OSError") none "") (FS.mk false none)).outcome =
      Outcome.uncaught "OSError" :=
  ⟨⟨(transfer_errors_caught_mkdir_errors_propagate.1
        (Env.mk none (some "HTTPError") "") (FS.mk false none) "HTTPError" rfl rfl).1,
    (transfer_errors_caught_mkdir_errors_propagate.1
        (Env.mk none (some "HTTPError") "") (FS.mk false none) "HTTPError" rfl rfl).2.1⟩,
   (transfer_errors_caught_mkdir_errors_propagate.2
        (Env.mk (some "OSError") none "") (FS.mk false none) "OSError" rfl rfl).1⟩

/-- Claim C2: for every invocation in which the download operation itself
fails (the download runs only after directory creation succeeded), the
script raises no unhandled error: it prints the error message and the
fallback instructions, and terminates normally with exit status 0. -/
theorem download_failure_handled (env : Env) (fs : FS) (e : String)
    (hmk : env.mkdirError = none) (hdl : env.downloadError = some e) :
    (runScript env fs).outcome = Outcome.normal ∧
    exitCode (runScript env fs).outcome = 0 ∧
    ("\n✗ Error: " ++ e) ∈ (runScript env fs).output ∧
    fallback_url ∈ (runScript env fs).output := by
  cases hd : fs.dirExists <;>
    simp [runScript, makedirs, urlretrieve, hmk, hdl, hd, exitCode,
      headerOutput, errorOutput]

/-- Witness for C2: an unreachable-URL failure ends the run normally with
exit status 0. -/
theorem download_failure_handled_witness :
    (runScript (Env.mk none (some "urlopen error") "") (FS.mk false none)).outcome =
      Outcome.normal ∧
    exitCode (runScript (Env.mk none (some "urlopen error") "") (FS.mk false none)).outcome
      = 0 :=
  ⟨(download_failure_handled (Env.mk none (some "urlopen error") "")
      (FS.mk false none) "urlopen error" rfl rfl).1,
   (download_failure_handled (Env.mk none (some "urlopen error") "")
      (FS.mk false none) "urlopen error" rfl rfl).2.1⟩

/-- Claim C5: `os.makedirs(models_dir, exist_ok=True)` is idempotent: when the
directory already exists it raises no error and leaves the state unchanged,
and after any successful run the directory exists and running it again (under
any environment) returns the same state — the same end state as one run from
absence. -/
theorem makedirs_idempotent :
    (∀ (envFail : Option String) (fs : FS), fs.dirExists = true →
      makedirs true envFail fs = Except.ok fs) ∧
    (∀ (envFail envFail2 : Option String) (fs fs2 : FS),
      makedirs true envFail fs = Except.ok fs2 →
      fs2.dirExists = true ∧ makedirs true envFail2 fs2 = Except.ok fs2) := by
  constructor
  · intro envFail fs h
    simp [makedirs, h]
  · intro envFail envFail2 fs fs2 h
    by_cases hd : fs.dirExists
    · simp [makedirs, hd] at h
      subst h
      exact ⟨hd, by simp [makedirs, hd]⟩
    · cases envFail with
      | some e => simp [makedirs, hd] at h
      | none =>
        simp [makedirs, hd] at h
        subst h
        exact ⟨rfl, by simp [makedirs]⟩

/-- Witness for C5: running on an existing directory changes nothing even
when the environment would make a creation attempt fail, and matches the end
state of a single run from absence. -/
theorem makedirs_idempotent_witness :
    makedirs true (some "PermissionError") (FS.mk true none) =
      Except.ok (FS.mk true none) ∧
    (FS.mk true none).dirExists = true ∧
    makedirs true none (FS.mk true none) = Except.ok (FS.mk true none) :=
  ⟨makedirs_idempotent.1 (some "PermissionError") (FS.mk true none) rfl,
   makedirs_idempotent.2 none none (FS.mk false none) (FS.mk true none) rfl⟩

/-- Claim C6: on a successful run, whatever file was at the destination path
before (the initial state is universally quantified, including one holding an
existing file) is replaced by the newly downloaded content; the model reads no
input, so no prompt or confirmation intervenes. -/
theorem success_overwrites_existing_file (env : Env) (fs : FS)
    (hmk : env.mkdirError = none) (hdl : env.downloadError = none) :
    (runScript env fs).fs.fileContent = some env.remoteContent ∧
    (runScript env fs).outcome = Outcome.normal := by
  cases hd : fs.dirExists <;>
    simp [runScript, makedirs, urlretrieve, hmk, hdl, hd]

/-- Witness for C6: a destination holding "old" ends holding the downloaded
"new". -/
theorem success_overwrites_existing_file_witness :
    (runScript (Env.mk none none "new") (FS.mk true (some "old"))).fs.fileContent =
      some "new" :=
  (success_overwrites_existing_file (Env.mk none none "new")
    (FS.mk true (some "old")) rfl rfl).1

/-- Counterexample to claim C7 as stated: an invocation in which the
directory-creation step raises performs zero fetch operations, not exactly
one. -/
theorem no_fetch_when_mkdir_fails :
    List.count Event.fetch
      (runScript (Env.mk (some "ReadOnlyFS") none "") (FS.mk false none)).trace = 0 ∧
    (runScript (Env.mk (some "ReadOnlyFS") none "") (FS.mk false none)).trace =
      [Event.mkdir] := by
  exact ⟨rfl, rfl⟩

/-- Claim C7 as amended: every invocation performs at most one fetch, the
trace is either directory creation alone (when it raises) or exactly the
fixed order directory creation, then the single fetch, then reporting; and
whenever directory creation succeeds, exactly this full trace — so exactly
one fetch — occurs, and a fetch never precedes directory creation. -/
theorem fetch_count_and_order (env : Env) (fs : FS) :
    ((runScript env fs).trace = [Event.mkdir] ∨
      (runScript env fs).trace = [Event.mkdir, Event.fetch, Event.report]) ∧
    List.count Event.fetch (runScript env fs).trace ≤ 1 ∧
    (∀ fs1 : FS, makedirs true env.mkdirError fs = Except.ok fs1 →
      (runScript env fs).trace = [Event.mkdir, Event.fetch, Event.report]) := by
  rcases hmk : makedirs true env.mkdirError fs with e | fs1
  · refine ⟨Or.inl ?_, ?_, ?_⟩
    · simp [runScript, hmk]
    · simp [runScript, hmk, List.count]
    · intro fs1 h
      simp at h
  · rcases hdl : urlretrieve env fs1 with e2 | fs2
    · refine ⟨Or.inr ?_, ?_, fun fs3 h => ?_⟩ <;>
        simp [runScript, hmk, hdl, List.count]
    · refine ⟨Or.inr ?_, ?_, fun fs3 h => ?_⟩ <;>
        simp [runScript, hmk, hdl, List.count]

/-- Witness for the amended C7: with directory creation succeeding, the
trace is exactly create-directory, fetch, report. -/
theorem fetch_count_and_order_witness :
    (runScript (Env.mk none none "m") (FS.mk false none)).trace =
      [Event.mkdir, Event.fetch, Event.report] :=
  (fetch_count_and_order (Env.mk none none "m") (FS.mk false none)).2.2
    (FS.mk true none) rfl
